import Mathlib

/-!
Verification of the stock-analyst metric/scoring pipeline.

This file gives a shallow embedding, in Lean 4, of the core algorithmic code of
the repository:

* `server/app/services/stock/calculator.py` (class `StockCalculator`):
  the metric fallback cascades (PER, PBR, ROE, dividend yield, volatility,
  profit margin) and the weighted scoring engine;
* `server/app/services/stock/formatter.py` (class `StockFormatter`):
  the date formatter;
* `server/app/services/stock/service.py` (class `StockService`):
  the cache-then-compute orchestration of `get_stock_info`.

Python's dynamically-typed scalar values (as they occur in the provider
dictionaries: `None`, numbers, strings) are modelled by `PyVal`; Python floats
are modelled by exact rationals `ℚ` (the claims under study concern exact
branch selection and piecewise-linear formulas on finite inputs, not binary
floating-point rounding).  Operations that can raise in Python are modelled in
the `Except` monad; a `try/except` block becomes `tryOr`.
-/

namespace StockAnalyst

/-- Scalar values of the untyped provider dictionaries: Python `None`,
numbers (ints and floats collapsed into `ℚ`), and strings. -/
inductive PyVal where
  | none
  | num (q : ℚ)
  | str (s : String)
  deriving DecidableEq, Repr

/-- Python error values (the message is irrelevant to the claims). -/
abbrev PyErr := String

/-- Python truthiness `bool(v)` for the modelled scalar types. -/
def PyVal.truthy : PyVal → Bool
  | .none => false
  | .num q => decide (q ≠ 0)
  | .str s => decide (s ≠ "")

/-- Run a computation that may raise, recovering with a default: models a
Python `try: x = body except Exception: pass` where `d` is the value `x`
holds if the body raises before (re)assigning it. -/
def tryOr {α : Type} (body : Except PyErr α) (d : α) : α :=
  match body with
  | .ok v => v
  | .error _ => d

/-- Dictionary access `info.get(key)`: an absent key yields Python `None`.
A field of the record model is `Option PyVal`: `Option.none` means the key is
absent, `some v` means the key is present and bound to `v` (possibly
`PyVal.none`). -/
def pyGet (field : Option PyVal) : PyVal := field.getD PyVal.none

/-- Dictionary access with default, `info.get(key, d)`. -/
def pyGetD (field : Option PyVal) (d : PyVal) : PyVal := field.getD d

/-- Python `a or b` on scalar values. -/
def pyOr (a b : PyVal) : PyVal := if a.truthy then a else b

/-- Digit list to the natural number it denotes in base 10. -/
def digitsToNat (cs : List Char) : ℕ :=
  cs.foldl (fun acc c => 10 * acc + (c.toNat - 48)) 0

/-- Decimal-string parsing, modelling Python `float(s)` on the common decimal
forms `[ws][+-]digits[.digits][ws]` (with at least one digit).  Exotic forms
accepted by CPython (exponents, `inf`, `nan`, underscores) are out of the
modelled input space; every `float()` call on a possibly-string value in the
embedded code sits inside a `try`, so a rejected string simply advances the
cascade exactly as a raising coercion does. -/
def strToRat (s : String) : Option ℚ :=
  let t := s.trim.data
  let signAndBody : ℚ × List Char :=
    match t with
    | '-' :: rest => (-1, rest)
    | '+' :: rest => (1, rest)
    | rest => (1, rest)
  let sgn := signAndBody.1
  match signAndBody.2.splitOn '.' with
  | [a] =>
    if !a.isEmpty && a.all Char.isDigit then some (sgn * digitsToNat a) else Option.none
  | [a, b] =>
    if (!a.isEmpty || !b.isEmpty) && a.all Char.isDigit && b.all Char.isDigit then
      some (sgn * ((digitsToNat a : ℚ) + (digitsToNat b : ℚ) / 10 ^ b.length))
    else Option.none
  | _ => Option.none

/-- Python `float(v)`: numbers pass through, strings are parsed, `None` and
unparsable strings raise. -/
def pyFloat : PyVal → Except PyErr ℚ
  | .none => .error "TypeError: float() argument is None"
  | .num q => .ok q
  | .str s =>
    match strToRat s with
    | some q => .ok q
    | Option.none => .error "ValueError: could not convert string to float"

/-- Python comparison `v > 0`: only numbers are orderable against `0`. -/
def pyGtZ : PyVal → Except PyErr Bool
  | .num q => .ok (decide (0 < q))
  | _ => .error "TypeError: unorderable types"

/-- Python comparison `v >= 0`. -/
def pyGeZ : PyVal → Except PyErr Bool
  | .num q => .ok (decide (0 ≤ q))
  | _ => .error "TypeError: unorderable types"

/-- Python subtraction on scalar values. -/
def pySub : PyVal → PyVal → Except PyErr PyVal
  | .num a, .num b => .ok (.num (a - b))
  | _, _ => .error "TypeError: unsupported operand types for subtraction"

/-- Python division on scalar values. -/
def pyDiv : PyVal → PyVal → Except PyErr ℚ
  | .num a, .num b =>
    if b = 0 then .error "ZeroDivisionError" else .ok (a / b)
  | _, _ => .error "TypeError: unsupported operand types for division"

/-- String repetition, for Python `s * n`. -/
def strRepeat (s : String) : ℕ → String
  | 0 => ""
  | n + 1 => s ++ strRepeat s n

/-- Python multiplication `v * n` by a nonnegative integer literal: numbers
multiply, strings repeat (so the product of a string by `100` is again a
string, not an error), `None` raises. -/
def pyMulInt : PyVal → ℕ → Except PyErr PyVal
  | .num q, n => .ok (.num (q * n))
  | .str s, n => .ok (.str (strRepeat s n))
  | .none, _ => .error "TypeError: unsupported operand types for multiplication"

/-- Banker's rounding of a rational to the nearest integer, ties to even:
the rounding mode of Python 3's built-in `round`. -/
def roundHalfEven (x : ℚ) : ℤ :=
  if x - ⌊x⌋ < 1 / 2 then ⌊x⌋
  else if 1 / 2 < x - ⌊x⌋ then ⌊x⌋ + 1
  else if ⌊x⌋ % 2 = 0 then ⌊x⌋ else ⌊x⌋ + 1

/-- Python `round(x, k)` for `k` decimal places, on exact rationals. -/
def pyRound (x : ℚ) (k : ℕ) : ℚ := (roundHalfEven (x * 10 ^ k) : ℚ) / 10 ^ k

/-- Python `round(v, k)` on a scalar value: only numbers can be rounded
(`round` of a string raises `TypeError`). -/
def pyRoundVal : PyVal → ℕ → Except PyErr ℚ
  | .num q, k => .ok (pyRound q k)
  | _, _ => .error "TypeError: type str does not define a round method"

/-- The provider `info` dictionary (yfinance-style vocabulary), restricted to
the keys the embedded calculator functions read.  `Option.none` models an
absent key; `some v` models a present key bound to the scalar `v`. -/
@[ext]
structure Info where
  trailingPE : Option PyVal := Option.none
  netIncomeToCommon : Option PyVal := Option.none
  forwardPE : Option PyVal := Option.none
  priceToBook : Option PyVal := Option.none
  bookValue : Option PyVal := Option.none
  totalStockholderEquity : Option PyVal := Option.none
  totalEquity : Option PyVal := Option.none
  totalAssets : Option PyVal := Option.none
  totalLiabilities : Option PyVal := Option.none
  returnOnEquity : Option PyVal := Option.none
  dividendRate : Option PyVal := Option.none
  currentPrice : Option PyVal := Option.none
  dividendYield : Option PyVal := Option.none
  beta : Option PyVal := Option.none
  profitMargins : Option PyVal := Option.none
  totalRevenue : Option PyVal := Option.none
  deriving DecidableEq

/-- The external FDR fallback-cache dictionary (`fdr_data`). -/
structure Fdr where
  per : Option PyVal := Option.none
  pbr : Option PyVal := Option.none
  dividend_yield : Option PyVal := Option.none

/-- A pandas DataFrame as the embedded code reads it: the row labels of its
index paired with the value each row holds in the most recent reporting
column (`columns[0]`).  An empty `rows` list models an empty frame. -/
structure Frame where
  rows : List (String × PyVal) := []

/-- The pandas `DataFrame.empty` test, on the modelled frame. -/
def Frame.isEmpty (f : Frame) : Bool := f.rows.isEmpty

/-- The yfinance `stock` object, restricted to the three accesses the
calculator makes.  Each access is a property/network call that can itself
raise, hence the `Except`; `Option.none` models yfinance returning `None`. -/
structure Stock where
  balance_sheet : Except PyErr (Option Frame) := .error "upstream failure"
  income_stmt : Except PyErr (Option Frame) := .error "upstream failure"
  history1y : Except PyErr (List ℚ) := .error "upstream failure"

/-- Substring test (`pat in s` / `str.contains`). -/
def containsSub (s pat : String) : Bool :=
  pat.isEmpty || decide ((s.splitOn pat).length > 1)

/-- Case-insensitive substring test, modelling
`index.str.contains(keyword, case=False)`. -/
def containsCI (s pat : String) : Bool := containsSub s.toLower pat.toLower

/-- First row of the frame whose label contains the keyword
(case-insensitively), yielding its latest-column value. -/
def frameFindRow (f : Frame) (keyword : String) : Option PyVal :=
  (f.rows.find? (fun r => containsCI r.fst keyword)).map Prod.snd

/-- Scan an ordered keyword list, taking the first keyword that matches any
row (the `for keyword in ...: if len(matching_rows) > 0: ... break` loops). -/
def frameScan (f : Frame) : List String → Option PyVal
  | [] => Option.none
  | kw :: rest =>
    match frameFindRow f kw with
    | some v => some v
    | Option.none => frameScan f rest

/-- `pd.notna(v)` on the modelled scalars (no NaN value is modelled, so only
`None` counts as missing). -/
def pdNotNA (v : PyVal) : Bool := v ≠ PyVal.none

/-- Python `v == 0` (an equality test never raises; non-numbers are simply
unequal to `0`). -/
def pyEqZero : PyVal → Bool
  | .num q => decide (q = 0)
  | _ => false

/-- The ordered equity line-item name variants of the balance-sheet scans. -/
def equity_keywords : List String :=
  ["Stockholders Equity", "Total Stockholder Equity",
   "Total Equity Gross Minority Interest", "Total Stockholders\x27 Equity",
   "Stockholders\x27 Equity"]

/-- The ordered net-income line-item name variants of the income-statement
scan. -/
def income_keywords : List String :=
  ["Net Income", "Net Income Common Stockholders",
   "Net Income Available To Common Stockholders", "Net Income After Taxes"]

/-- Outcome of one guarded `try: ... maybe assign ... except: pass` strategy
block: assign the produced value if there is one, otherwise keep the previous
value, a raised exception also keeping the previous value. -/
def applyStrategy (res : Except PyErr (Option ℚ)) (prev : PyVal) : PyVal :=
  match res with
  | .ok (some q) => PyVal.num q
  | .ok Option.none => prev
  | .error _ => prev

/-- As `applyStrategy`, for a variable of Python type `Optional[float]`. -/
def applyStrategyOpt (res : Except PyErr (Option ℚ)) (prev : Option ℚ) : Option ℚ :=
  match res with
  | .ok (some q) => some q
  | .ok Option.none => prev
  | .error _ => prev

/-- Truthiness of a Python `Optional[float]` variable (`not roe`). -/
def optTruthy (r : Option ℚ) : Bool :=
  match r with
  | some q => decide (q ≠ 0)
  | Option.none => false

/-- The PER second strategy (`calculator.py` lines 36-47): inside a `try`,
compute `round(market_cap / net_income, 2)` when `market_cap` and
`net_income` are both truthy and positive. -/
def peFromIncome (info : Info) (market_cap : Option ℚ) : Except PyErr (Option ℚ) := do
  let net_income := pyGetD info.netIncomeToCommon (.num 0)
  match market_cap with
  | Option.none => pure Option.none
  | some m =>
    if m ≠ 0 then
      if 0 < m then
        if net_income.truthy then do
          let pos ← pyGtZ net_income
          if pos then do
            let q ← pyDiv (.num m) net_income
            pure (some (pyRound q 2))
          else pure Option.none
        else pure Option.none
      else pure Option.none
    else pure Option.none

/-- Embeds `StockCalculator.calculate_pe_ratio` (`calculator.py` lines 32-56):
the PER cascade `trailingPE` → `market_cap / net_income` → `forwardPE` →
FDR-cache value, defaulting to `0.0`; each stage fires only while the
accumulated value is falsy. -/
def calculate_pe (info : Info) (fdr_data : Fdr) (market_cap : Option ℚ) :
    Except PyErr PyVal := do
  let pe0 := pyGet info.trailingPE
  let pe1 := if !pe0.truthy then applyStrategy (peFromIncome info market_cap) pe0 else pe0
  let pe2 := if !pe1.truthy then pyGet info.forwardPE else pe1
  let pe3 := if !pe2.truthy then pyGetD fdr_data.per (.num 0) else pe2
  pure pe3

/-- Embeds `StockCalculator._calculate_total_equity_from_info`
(`calculator.py` lines 58-68): direct equity fields, else
`total_assets - total_liabilities` when assets are positive and liabilities
nonnegative.  May raise (its callers wrap it in a `try`). -/
def calc_total_equity_from_info (info : Info) : Except PyErr PyVal := do
  let te0 := pyOr (pyGet info.totalStockholderEquity) (pyGet info.totalEquity)
  if !te0.truthy then
    let total_assets := pyGetD info.totalAssets (.num 0)
    let total_liabilities := pyGetD info.totalLiabilities (.num 0)
    let aPos ← pyGtZ total_assets
    let lNonneg ← if aPos then pyGeZ total_liabilities else pure false
    if aPos && lNonneg then pySub total_assets total_liabilities
    else pure te0
  else pure te0

/-- Embeds `StockCalculator._calculate_total_equity_from_balance_sheet`
(`calculator.py` lines 70-100): scan the balance sheet for the first equity
line item, `None` when the frame is missing/empty/unmatched or the access
raises. -/
def calc_total_equity_from_balance_sheet (stock : Stock) : Option PyVal :=
  tryOr (do
    let bs ← stock.balance_sheet
    match bs with
    | some f =>
      if !f.isEmpty then pure (frameScan f equity_keywords)
      else pure Option.none
    | Option.none => pure Option.none) Option.none

/-- The PBR second strategy (`calculator.py` lines 113-124):
`round(current_price / book_value, 2)` when both are positive. -/
def pbFromBook (info : Info) (current_price : ℚ) : Except PyErr (Option ℚ) := do
  let book_value := pyGet info.bookValue
  if 0 < current_price then
    if book_value.truthy then do
      let pos ← pyGtZ book_value
      if pos then do
        let q ← pyDiv (.num current_price) book_value
        pure (some (pyRound q 2))
      else pure Option.none
    else pure Option.none
  else pure Option.none

/-- The PBR third strategy (`calculator.py` lines 127-138):
`round(market_cap / total_equity, 2)` with the equity derived from `info`. -/
def pbFromEquity (info : Info) (market_cap : Option ℚ) : Except PyErr (Option ℚ) := do
  let total_equity ← calc_total_equity_from_info info
  match market_cap with
  | Option.none => pure Option.none
  | some m =>
    if m ≠ 0 then
      if 0 < m then
        if total_equity.truthy then do
          let pos ← pyGtZ total_equity
          if pos then do
            let q ← pyDiv (.num m) total_equity
            pure (some (pyRound q 2))
          else pure Option.none
        else pure Option.none
      else pure Option.none
    else pure Option.none

/-- The PBR fourth strategy (`calculator.py` lines 141-156):
`round(market_cap / float(total_equity), 2)` with the equity scanned out of
the balance sheet. -/
def pbFromBalanceSheet (stock : Stock) (market_cap : Option ℚ) :
    Except PyErr (Option ℚ) := do
  match market_cap with
  | Option.none => pure Option.none
  | some m =>
    if m ≠ 0 then
      if 0 < m then
        match calc_total_equity_from_balance_sheet stock with
        | Option.none => pure Option.none
        | some te =>
          if pdNotNA te then do
            let tf ← pyFloat te
            if 0 < tf then pure (some (pyRound (m / tf) 2))
            else pure Option.none
          else pure Option.none
      else pure Option.none
    else pure Option.none

/-- Embeds `StockCalculator.calculate_pb_ratio` (`calculator.py` lines
102-162): the PBR cascade `priceToBook` → price/book-value → market-cap/equity
→ market-cap/balance-sheet-equity → FDR cache, defaulting to `0.0`. -/
def calculate_pb (info : Info) (current_price : ℚ) (fdr_data : Fdr)
    (market_cap : Option ℚ) (stock : Stock) : Except PyErr PyVal := do
  let pb0 := pyGet info.priceToBook
  let pb1 := if !pb0.truthy then applyStrategy (pbFromBook info current_price) pb0 else pb0
  let pb2 := if !pb1.truthy then applyStrategy (pbFromEquity info market_cap) pb1 else pb1
  let pb3 := if !pb2.truthy then applyStrategy (pbFromBalanceSheet stock market_cap) pb2 else pb2
  let pb4 := if !pb3.truthy then pyGetD fdr_data.pbr (.num 0) else pb3
  pure pb4

/-- Embeds `StockCalculator.calculate_pb_ratio_without_stock`
(`calculator.py` lines 164-211): as `calculate_pb` but with the balance-sheet
stage skipped. -/
def calculate_pb_without_stock (info : Info) (current_price : ℚ) (fdr_data : Fdr)
    (market_cap : Option ℚ) : Except PyErr PyVal := do
  let pb0 := pyGet info.priceToBook
  let pb1 := if !pb0.truthy then applyStrategy (pbFromBook info current_price) pb0 else pb0
  let pb2 := if !pb1.truthy then applyStrategy (pbFromEquity info market_cap) pb1 else pb1
  let pb3 := if !pb2.truthy then pyGetD fdr_data.pbr (.num 0) else pb2
  pure pb3

/-- The dividend-yield first strategy (`calculator.py` lines 223-236):
`(dividendRate / currentPrice) * 100` when both fields are present and
coerce to positive floats; `some` models the early `return`. -/
def dyDirect (info : Info) : Except PyErr (Option ℚ) := do
  let dividend_rate := pyGet info.dividendRate
  let current_price := pyGet info.currentPrice
  if dividend_rate ≠ PyVal.none ∧ current_price ≠ PyVal.none then do
    let rate_value ← pyFloat dividend_rate
    let price_value ← pyFloat current_price
    if 0 < rate_value ∧ 0 < price_value then
      pure (some (rate_value / price_value * 100))
    else pure Option.none
  else pure Option.none

/-- The dividend-yield second strategy (`calculator.py` lines 239-251): the
source `dividendYield` field, scaled by 100 when the raw value is below 1. -/
def dyFromRaw (info : Info) : Except PyErr (Option ℚ) := do
  let raw := pyGet info.dividendYield
  if raw ≠ PyVal.none then do
    let dy ← pyFloat raw
    let dy2 := if dy < 1 then dy * 100 else dy
    pure (some dy2)
  else pure Option.none

/-- The dividend-yield third strategy (`calculator.py` lines 254-260): the
FDR-cache value, unscaled. -/
def dyFromFdr (fdr_data : Fdr) : Except PyErr (Option ℚ) := do
  let v := pyGet fdr_data.dividend_yield
  if v ≠ PyVal.none then do
    let dy ← pyFloat v
    pure (some dy)
  else pure Option.none

/-- Embeds `StockCalculator.calculate_dividend_yield` (`calculator.py` lines
213-262): three strategies, each in its own `try` with an early `return`,
then the `0.0` default (`is_korean` is kept for interface compatibility and
unused, as in the source). -/
def calculate_dividend_yield (info : Info) (fdr_data : Fdr) (is_korean : Bool) :
    Except PyErr ℚ := do
  let _ := is_korean
  match tryOr (dyDirect info) Option.none with
  | some q => pure q
  | Option.none =>
    match tryOr (dyFromRaw info) Option.none with
    | some q => pure q
    | Option.none =>
      match tryOr (dyFromFdr fdr_data) Option.none with
      | some q => pure q
      | Option.none => pure 0

/-- The ROE second strategy (`calculator.py` lines 272-294): derive total
equity (direct fields, else assets minus liabilities), then
`round((net_income / total_equity) * 100, 2)` when both are truthy and
positive. -/
def roeFromEquity (info : Info) : Except PyErr (Option ℚ) := do
  let net_income := pyGetD info.netIncomeToCommon (.num 0)
  let te0 := pyOr (pyGet info.totalStockholderEquity) (pyGetD info.totalEquity (.num 0))
  let total_equity ←
    if !te0.truthy || pyEqZero te0 then do
      let total_assets := pyGetD info.totalAssets (.num 0)
      let total_liabilities := pyGetD info.totalLiabilities (.num 0)
      let aPos ← pyGtZ total_assets
      let lNonneg ← if aPos then pyGeZ total_liabilities else pure false
      if aPos && lNonneg then pySub total_assets total_liabilities else pure te0
    else pure te0
  if net_income.truthy then do
    let niPos ← pyGtZ net_income
    if niPos then
      if total_equity.truthy then do
        let tePos ← pyGtZ total_equity
        if tePos then do
          let q ← pyDiv net_income total_equity
          pure (some (pyRound (q * 100) 2))
        else pure Option.none
      else pure Option.none
    else pure Option.none
  else pure Option.none

/-- The ROE third strategy (`calculator.py` lines 297-359): scan the balance
sheet for equity and the income statement for net income, then
`round((float(net_income) / float(total_equity)) * 100, 2)`. -/
def roeFromStatements (stock : Stock) : Except PyErr (Option ℚ) := do
  let bs ← stock.balance_sheet
  let total_equity : Option PyVal :=
    match bs with
    | some f => if !f.isEmpty then frameScan f equity_keywords else Option.none
    | Option.none => Option.none
  let ist ← stock.income_stmt
  let net_income : Option PyVal :=
    match ist with
    | some f => if !f.isEmpty then frameScan f income_keywords else Option.none
    | Option.none => Option.none
  match total_equity with
  | some te =>
    if pdNotNA te then do
      let tf ← pyFloat te
      if 0 < tf then
        match net_income with
        | some ni =>
          if pdNotNA ni then do
            let nf ← pyFloat ni
            pure (some (pyRound (nf / tf * 100) 2))
          else pure Option.none
        | Option.none => pure Option.none
      else pure Option.none
    else pure Option.none
  | Option.none => pure Option.none

/-- The ROE first strategy (`calculator.py` lines 265-269):
`round(return_on_equity * 100, 2)` whenever the field is present.  NOTE:
unlike every other strategy, this code is NOT wrapped in a `try`, so a
non-numeric field value raises out of `calculate_roe` itself. -/
def roeFirst (info : Info) : Except PyErr (Option ℚ) := do
  let return_on_equity := pyGet info.returnOnEquity
  if return_on_equity ≠ PyVal.none then do
    let prod ← pyMulInt return_on_equity 100
    let r ← pyRoundVal prod 2
    pure (some r)
  else pure Option.none

/-- Embeds `StockCalculator.calculate_roe` (`calculator.py` lines 264-361):
the unguarded first strategy, then the equity-based and statement-based
strategies, each consulted only while the accumulated `roe` is falsy (so a
computed `0.0` counts as unset). -/
def calculate_roe (info : Info) (stock : Stock) : Except PyErr (Option ℚ) := do
  let roe0 ← roeFirst info
  let roe1 := if !optTruthy roe0 then applyStrategyOpt (roeFromEquity info) roe0 else roe0
  let roe2 := if !optTruthy roe1 then applyStrategyOpt (roeFromStatements stock) roe1 else roe1
  pure roe2

/-- Embeds `StockCalculator.calculate_roe_without_stock` (`calculator.py`
lines 363-401): as `calculate_roe` with the statement-based stage skipped. -/
def calculate_roe_without_stock (info : Info) : Except PyErr (Option ℚ) := do
  let roe0 ← roeFirst info
  let roe1 := if !optTruthy roe0 then applyStrategyOpt (roeFromEquity info) roe0 else roe0
  pure roe1

/-- Embeds `StockCalculator.calculate_profit_margin` (`calculator.py` lines
439-465): the direct `profitMargins` field, else
`netIncomeToCommon / totalRevenue` when the revenue is positive; the whole
body sits in one `try`, with `None` on failure. -/
def calculate_profit_margin (info : Info) : Option ℚ :=
  tryOr (do
    let pm := pyGet info.profitMargins
    if pm ≠ PyVal.none then do
      let f ← pyFloat pm
      pure (some f)
    else
      let net_income := pyGet info.netIncomeToCommon
      let total_revenue := pyGet info.totalRevenue
      if net_income ≠ PyVal.none ∧ total_revenue ≠ PyVal.none then do
        let pos ← pyGtZ total_revenue
        if pos then do
          let q ← pyDiv net_income total_revenue
          pure (some q)
        else pure Option.none
      else pure Option.none) Option.none

/-- Pandas `Series.pct_change().dropna()` on the close column: consecutive
relative changes.  (Pandas produces `inf`/`NaN` for a zero previous close;
the `ℚ` model yields the junk value `0` there, so theorems about the
historical path carry positivity hypotheses on the closes.) -/
def pctChange : List ℚ → List ℚ
  | a :: b :: rest => (b - a) / a :: pctChange (b :: rest)
  | _ => []

/-- Sum of a list of rationals. -/
def listSum (xs : List ℚ) : ℚ := xs.foldl (· + ·) 0

/-- Pandas `Series.std()` squared: the sample variance with `ddof=1`.
(For fewer than two observations pandas yields `NaN`; the model yields the
junk value `0`, so theorems about the historical path require at least two
daily returns.) -/
def sampleVariance (xs : List ℚ) : ℚ :=
  let m := listSum xs / (xs.length : ℚ)
  listSum (xs.map (fun x => (x - m) ^ 2)) / ((xs.length : ℚ) - 1)

/-- Banker's rounding on a real argument (for the volatility value, whose
computation passes through `np.sqrt`). -/
noncomputable def roundHalfEvenR (x : ℝ) : ℤ :=
  if x - ⌊x⌋ < 1 / 2 then ⌊x⌋
  else if 1 / 2 < x - ⌊x⌋ then ⌊x⌋ + 1
  else if ⌊x⌋ % 2 = 0 then ⌊x⌋ else ⌊x⌋ + 1

/-- Python `round(x, k)` on a real argument, yielding the (rational) rounded
value. -/
noncomputable def pyRoundR (x : ℝ) (k : ℕ) : ℚ :=
  (roundHalfEvenR (x * 10 ^ k) : ℚ) / 10 ^ k

/-- The annualized volatility before the final rounding:
`daily_returns.std() * np.sqrt(252)`. -/
noncomputable def annualVolatilityOf (daily_returns : List ℚ) : ℝ :=
  Real.sqrt (sampleVariance daily_returns) * Real.sqrt 252

/-- The volatility second strategy (`calculator.py` lines 414-435): one year
of closes, `round(std(pct_change) * sqrt(252) * 100, 2)` when at least two
rows and one daily return exist.  (`stock.history` never returns `None`, so
the `hist is not None` test is modelled as always passing.) -/
noncomputable def volHistorical (stock : Stock) : Except PyErr (Option ℚ) := do
  let hist ← stock.history1y
  if !hist.isEmpty && hist.length > 1 then
    let daily_returns := pctChange hist
    if daily_returns.length > 0 then
      pure (some (pyRoundR (annualVolatilityOf daily_returns * 100) 2))
    else pure Option.none
  else pure Option.none

/-- Embeds `StockCalculator.calculate_volatility` (`calculator.py` lines
403-437): the source `beta` field when present (tag `"beta"`), then — while
the accumulated value is falsy — the historical computation (tag
`"historical"`). -/
noncomputable def calculate_volatility (info : Info) (stock : Stock) :
    Except PyErr (PyVal × Option String) := do
  let beta := pyGet info.beta
  let volatility0 : PyVal := if beta ≠ PyVal.none then beta else PyVal.none
  let volatility_type0 : Option String :=
    if beta ≠ PyVal.none then some "beta" else Option.none
  if !volatility0.truthy then
    match volHistorical stock with
    | .ok (some v) => pure (PyVal.num v, some "historical")
    | .ok Option.none => pure (volatility0, volatility_type0)
    | .error _ => pure (volatility0, volatility_type0)
  else pure (volatility0, volatility_type0)

/-- The `roe_score` block of `StockCalculator._score_profitability`
(`calculator.py` lines 481-493). -/
def roe_score_of (roe : Option ℚ) : ℚ :=
  match roe with
  | Option.none => 50
  | some r =>
    if r > 20 then 100
    else if r ≥ 10 then 50 + ((r - 10) / 10) * 50
    else if r ≥ 0 then (r / 10) * 50
    else 0

/-- The `profit_margin_score` block of `StockCalculator._score_profitability`
(`calculator.py` lines 495-510): the same breakpoints applied to
`profit_margin * 100`. -/
def margin_score_of (profit_margin : Option ℚ) : ℚ :=
  match profit_margin with
  | Option.none => 50
  | some pm =>
    let pct := pm * 100
    if pct > 20 then 100
    else if pct ≥ 10 then 50 + ((pct - 10) / 10) * 50
    else if pct ≥ 0 then (pct / 10) * 50
    else 0

/-- Embeds `StockCalculator._score_profitability` (`calculator.py` lines
467-514). -/
def _score_profitability (roe profit_margin : Option ℚ) : ℚ :=
  pyRound (roe_score_of roe * 0.5 + margin_score_of profit_margin * 0.5) 1

/-- The `pe_score` block of `StockCalculator._score_valuation`
(`calculator.py` lines 527-543). -/
def pe_score_of (pe : Option ℚ) : ℚ :=
  match pe with
  | Option.none => 50
  | some p =>
    if p > 0 then
      if p ≤ 10 then 100 - (p / 10) * 20
      else if p ≤ 20 then 80 - ((p - 10) / 10) * 30
      else if p ≤ 30 then 50 - ((p - 20) / 10) * 30
      else max 0 (20 - ((p - 30) / 10) * 10)
    else 50

/-- The `pb_score` block of `StockCalculator._score_valuation`
(`calculator.py` lines 545-558). -/
def pb_score_of (pb : Option ℚ) : ℚ :=
  match pb with
  | Option.none => 50
  | some p =>
    if p > 0 then
      if p ≤ 1 then 100 - p * 20
      else if p ≤ 2 then 80 - (p - 1) * 30
      else if p ≤ 3 then 50 - (p - 2) * 30
      else max 0 (20 - (p - 3) * 5)
    else 50

/-- Embeds `StockCalculator._score_valuation` (`calculator.py` lines
516-562). -/
def _score_valuation (pe pb : Option ℚ) : ℚ :=
  pyRound (pe_score_of pe * 0.5 + pb_score_of pb * 0.5) 1

/-- Embeds `StockCalculator._score_momentum` (`calculator.py` lines 564-600):
neutral 50 without both 52-week bounds or with a degenerate range, else
`20 + 80 * (price - low) / (high - low)` rounded to one decimal.  Note the
position ratio is NOT clamped to `[0, 1]`. -/
def _score_momentum (current_price : ℚ) (fifty_two_week_low : Option ℚ)
    (fifty_two_week_high : Option ℚ) : ℚ :=
  match fifty_two_week_low, fifty_two_week_high with
  | some l, some h =>
    if l ≥ h then 50
    else
      let price_range := h - l
      if price_range ≤ 0 then 50
      else
        let position := (current_price - l) / price_range
        pyRound (20 + position * 80) 1
  | _, _ => 50

/-- The `market_cap_score` block of `StockCalculator._score_stability`
(`calculator.py` lines 616-636): thresholds on `float(market_cap)`, the
coercion failure of a non-numeric string swallowed by its `try`. -/
def market_cap_score_of (market_cap : PyVal) : ℚ :=
  match market_cap with
  | PyVal.none => 50
  | v =>
    tryOr (do
      let m ← pyFloat v
      pure (if m ≥ 1000000000000 then (100 : ℚ)
        else if m ≥ 100000000000 then 80
        else if m ≥ 10000000000 then 60
        else 40)) 50

/-- The `beta_score` block of `StockCalculator._score_stability`
(`calculator.py` lines 638-655). -/
def beta_score_of (beta : Option ℚ) : ℚ :=
  match beta with
  | Option.none => 50
  | some b =>
    if 0.8 ≤ b ∧ b ≤ 1.2 then 100
    else if (0.5 ≤ b ∧ b < 0.8) ∨ (1.2 < b ∧ b ≤ 1.5) then
      if b < 1 then 80 + ((b - 0.5) / 0.3) * 20
      else 100 - ((b - 1.2) / 0.3) * 20
    else if b < 0.5 then 60 + (b / 0.5) * 20
    else max 0 (80 - (b - 1.5) * 10)

/-- Embeds `StockCalculator._score_stability` (`calculator.py` lines
602-659). -/
def _score_stability (market_cap : PyVal) (beta : Option ℚ) : ℚ :=
  pyRound (market_cap_score_of market_cap * 0.5 + beta_score_of beta * 0.5) 1

/-- The `stock_data` dictionary as `calculate_score` reads it.  `_info` is
the optional embedded provider dictionary consulted when the `info` argument
is falsy. -/
structure StockData where
  current_price : Option ℚ := Option.none
  fifty_two_week_low : Option ℚ := Option.none
  fifty_two_week_high : Option ℚ := Option.none
  _info : Option Info := Option.none

/-- The empty-dictionary (falsiness) test for an `info` dictionary. -/
def Info.isEmptyDict (i : Info) : Bool := decide (i = {})

/-- The `info_dict = info or stock_data.get("_info", {})` resolution of
`calculate_score` (`calculator.py` line 690). -/
def resolveInfoDict (info : Option Info) (stock_data : StockData) : Info :=
  match info with
  | some i => if i.isEmptyDict then stock_data._info.getD {} else i
  | Option.none => stock_data._info.getD {}

/-- Embeds `StockCalculator.calculate_score` (`calculator.py` lines 661-722):
the four sub-scores combined as
`0.4 * profitability + 0.3 * valuation + 0.2 * momentum + 0.1 * stability`,
clamped to `[0, 100]` and rounded to one decimal. -/
def calculate_score (stock_data : StockData) (roe : Option ℚ) (pe : Option ℚ)
    (pb : Option ℚ) (market_cap : PyVal) (beta : Option ℚ)
    (info : Option Info) : ℚ :=
  let info_dict := resolveInfoDict info stock_data
  let profit_margin := calculate_profit_margin info_dict
  let profitability_score := _score_profitability roe profit_margin
  let valuation_score := _score_valuation pe pb
  let current_price := stock_data.current_price.getD 0
  let momentum_score := _score_momentum current_price stock_data.fifty_two_week_low
    stock_data.fifty_two_week_high
  let stability_score := _score_stability market_cap beta
  let total_score := profitability_score * 0.4 + valuation_score * 0.3 +
    momentum_score * 0.2 + stability_score * 0.1
  pyRound (max 0 (min 100 total_score)) 1

/-- Effect counters for one `StockService.get_stock_info` invocation, at the
collaborator level: provider data fetches (`provider.get_stock_info` /
`provider.get_news`), ticker-search resolutions (`search_ticker`), cache
reads (the freshness query) and cache writes (the `_save_to_db` upsert). -/
structure Effects where
  providerCalls : ℕ := 0
  searchCalls : ℕ := 0
  cacheReads : ℕ := 0
  cacheWrites : ℕ := 0
  deriving DecidableEq, Repr

/-- One row of the `stock_analysis_logs` cache table: ticker key (stored
uppercased), the persisted `stock_data` document, the persisted `news` list
and the last-update timestamp in seconds.  (The write-only `price` column is
omitted.) -/
structure CacheEntry (α : Type) where
  ticker : String
  doc : α
  news : List String
  updated_at : ℤ
  deriving DecidableEq

/-- The cache table, rows in query order. -/
structure Db (α : Type) where
  entries : List (CacheEntry α)

/-- Embeds `StockProvider._is_ticker_format` (`provider.py` lines 94-96):
the regex `^[A-Z0-9]{1,10}(\.KS|\.KQ)?$` applied to the uppercased, stripped
query. -/
def isTickerFormat (query : String) : Bool :=
  let stripped :=
    ((query.data.map Char.toUpper).dropWhile Char.isWhitespace).reverse.dropWhile
      Char.isWhitespace
  let hasSuffix := stripped.take 3 = ['S', 'K', '.'] || stripped.take 3 = ['Q', 'K', '.']
  let body := if hasSuffix then (stripped.drop 3).reverse else stripped.reverse
  decide (1 ≤ body.length) && decide (body.length ≤ 10) &&
    body.all (fun c => c.isUpper || c.isDigit)

/-- Python `s.upper()`. -/
def strUpper (s : String) : String := String.mk (s.data.map Char.toUpper)

/-- The freshness query of `get_stock_info` (`service.py` lines 60-65): the
first row whose ticker equals the uppercased key and whose `updated_at` is at
least `cutoff`. -/
def findFresh {α : Type} (db : Db α) (key : String) (cutoff : ℤ) :
    Option (CacheEntry α) :=
  db.entries.find? (fun e => e.ticker == key && decide (cutoff ≤ e.updated_at))

/-- Update of the first row with the given ticker (`_save_to_db`, update
branch). -/
def updateFirst {α : Type} : List (CacheEntry α) → String → α → List String → ℤ →
    List (CacheEntry α)
  | [], _, _, _, _ => []
  | e :: rest, key, doc, news, now =>
    if e.ticker == key then
      { e with doc := doc, news := news, updated_at := now } :: rest
    else e :: updateFirst rest key doc news now

/-- Embeds `StockService._save_to_db` (`service.py` lines 400-413) as one
cache-collaborator write: update the existing row for the uppercased ticker,
else insert a new row.  (The surrounding `try/except` rolls back a failed
commit; commits are modelled as succeeding.) -/
def saveToDb {α : Type} (db : Db α) (key : String) (doc : α) (news : List String)
    (now : ℤ) : Db α :=
  match db.entries.find? (fun e => e.ticker == key) with
  | some _ => ⟨updateFirst db.entries key doc news now⟩
  | Option.none => ⟨db.entries ++ [⟨key, doc, news, now⟩]⟩

/-- Result of one `get_stock_info` invocation: the returned
`(stock_data, news)` pair, the cache state afterwards, and the effect
counts. -/
structure ServiceResult (α : Type) where
  doc : α
  news : List String
  db : Db α
  effects : Effects

/-- Embeds `StockService.get_stock_info` (`service.py` lines 52-299) at the
collaborator level: resolve a non-ticker-shaped query through the search
collaborator; read the cache and short-circuit on a row no older than one
hour; otherwise produce the payload through the provider + calculator +
formatter pipeline (abstracted as the `fetchData` and `fetchNews`
collaborators, one provider call each) and upsert it into the cache.  The
claims under study concern the cache discipline, which this model carries
faithfully: the freshness cutoff is `now - 3600` seconds compared with
`updated_at >= cutoff`, the cache key is the uppercased ticker, and the
write is the single `_save_to_db` upsert. -/
def get_stock_info {α : Type} (resolve : String → String) (fetchData : String → α)
    (fetchNews : String → List String) (ticker : String) (db : Db α) (now : ℤ) :
    ServiceResult α :=
  let resolved := if !isTickerFormat ticker then (resolve ticker, 1) else (ticker, 0)
  let t := resolved.1
  let cutoff := now - 3600
  match findFresh db (strUpper t) cutoff with
  | some e =>
    ⟨e.doc, e.news, db,
      { providerCalls := 0, searchCalls := resolved.2, cacheReads := 1, cacheWrites := 0 }⟩
  | Option.none =>
    let data := fetchData t
    let news := fetchNews t
    ⟨data, news, saveToDb db (strUpper t) data news now,
      { providerCalls := 2, searchCalls := resolved.2, cacheReads := 1, cacheWrites := 1 }⟩

/-- Gregorian leap-year test. -/
def isLeapYear (y : ℕ) : Bool := (y % 4 == 0 && y % 100 != 0) || y % 400 == 0

/-- Days in a month, as `datetime` validates them. -/
def daysInMonth (y m : ℕ) : ℕ :=
  if m = 2 then (if isLeapYear y then 29 else 28)
  else if m = 4 ∨ m = 6 ∨ m = 9 ∨ m = 11 then 30
  else 31

/-- A calendar date (the time-of-day part of a parsed datetime is validated
but discarded, since `strftime` renders only the date). -/
structure Date where
  year : ℕ
  month : ℕ
  day : ℕ
  deriving DecidableEq, Repr

/-- Validity as enforced by the `datetime` constructor. -/
def validDate (y m d : ℕ) : Bool :=
  decide (1 ≤ y) && decide (y ≤ 9999) && decide (1 ≤ m) && decide (m ≤ 12) &&
    decide (1 ≤ d) && decide (d ≤ daysInMonth y m)

/-- Nonempty all-digit character run. -/
def allDigits (cs : List Char) : Bool := !cs.isEmpty && cs.all Char.isDigit

/-- Split a character list on a separator character. -/
def splitOnChar (sep : Char) : List Char → List (List Char)
  | [] => [[]]
  | c :: rest =>
    let r := splitOnChar sep rest
    if c = sep then [] :: r
    else
      match r with
      | h :: t => (c :: h) :: t
      | [] => [[c]]

/-- The `datetime.strptime(s, "%Y-%m-%d")` parse: exactly four year digits,
one or two month and day digits, all ranges validated. -/
def parseYMD (cs : List Char) : Option Date :=
  match splitOnChar '-' cs with
  | [ys, ms, ds] =>
    if ys.length == 4 && allDigits ys &&
        (ms.length == 1 || ms.length == 2) && allDigits ms &&
        (ds.length == 1 || ds.length == 2) && allDigits ds then
      let y := digitsToNat ys
      let m := digitsToNat ms
      let d := digitsToNat ds
      if validDate y m d then some ⟨y, m, d⟩ else Option.none
    else Option.none
  | _ => Option.none

/-- Two fixed digits with an upper bound (an `HH`/`MM`/`SS` field). -/
def twoDigitsLE (cs : List Char) (bound : ℕ) : Bool :=
  cs.length == 2 && allDigits cs && decide (digitsToNat cs ≤ bound)

/-- A seconds field `SS` or `SS.fff`/`SS.ffffff`. -/
def validSeconds (cs : List Char) : Bool :=
  match splitOnChar '.' cs with
  | [ss] => twoDigitsLE ss 59
  | [ss, fs] => twoDigitsLE ss 59 && (fs.length == 3 || fs.length == 6) && allDigits fs
  | _ => false

/-- A time-of-day `HH[:MM[:SS[.fff[fff]]]]` as `fromisoformat` accepts it. -/
def validTimeOfDay (cs : List Char) : Bool :=
  match splitOnChar ':' cs with
  | [hs] => twoDigitsLE hs 23
  | [hs, ms] => twoDigitsLE hs 23 && twoDigitsLE ms 59
  | [hs, ms, ss] => twoDigitsLE hs 23 && twoDigitsLE ms 59 && validSeconds ss
  | _ => false

/-- A UTC-offset suffix `HH:MM` (after its `+`/`-` sign). -/
def validTzTail (cs : List Char) : Bool :=
  match splitOnChar ':' cs with
  | [hs, ms] => twoDigitsLE hs 23 && twoDigitsLE ms 59
  | _ => false

/-- Split a time string at the first `+`/`-` sign (the UTC-offset marker). -/
def splitAtSign : List Char → List Char × Option (List Char)
  | [] => ([], Option.none)
  | c :: rest =>
    if c = '+' || c = '-' then ([], some rest)
    else
      let r := splitAtSign rest
      (c :: r.1, r.2)

/-- The strict 10-character `YYYY-MM-DD` prefix of an ISO datetime. -/
def parseIsoDate (cs : List Char) : Option Date :=
  match splitOnChar '-' cs with
  | [ys, ms, ds] =>
    if ys.length == 4 && allDigits ys && ms.length == 2 && allDigits ms &&
        ds.length == 2 && allDigits ds then
      let y := digitsToNat ys
      let m := digitsToNat ms
      let d := digitsToNat ds
      if validDate y m d then some ⟨y, m, d⟩ else Option.none
    else Option.none
  | _ => Option.none

/-- The `datetime.fromisoformat` parse (the pre-3.11 grammar): a strict date,
optionally followed by a one-character separator, a time of day and a UTC
offset. -/
def parseIso (cs : List Char) : Option Date :=
  if cs.length < 10 then Option.none
  else
    match parseIsoDate (cs.take 10) with
    | Option.none => Option.none
    | some dt =>
      if cs.length == 10 then some dt
      else if cs.length == 11 then Option.none
      else
        let timePart := splitAtSign (cs.drop 11)
        if validTimeOfDay timePart.1 &&
            (match timePart.2 with
             | Option.none => true
             | some tz => validTzTail tz) then
          some dt
        else Option.none

/-- Python `s.replace("Z", "+00:00")` (every occurrence). -/
def replaceZ : List Char → List Char
  | [] => []
  | c :: rest =>
    if c = 'Z' then '+' :: '0' :: '0' :: ':' :: '0' :: '0' :: replaceZ rest
    else c :: replaceZ rest

/-- The parse attempt of `format_date` (`formatter.py` lines 181-186): the
ISO branch when the string contains a `T`, else the `%Y-%m-%d` branch. -/
def parsedDateOf (s : String) : Option Date :=
  if s.data.contains 'T' then parseIso (replaceZ s.data) else parseYMD s.data

/-- The two output formats of `format_date`. -/
inductive FormatType where
  | short
  | long
  deriving DecidableEq, Repr

/-- Zero-padded two-digit rendering (`strftime` `%m`/`%d`). -/
def pad2 (n : ℕ) : String := if n < 10 then "0" ++ toString n else toString n

/-- Zero-padded four-digit rendering (`strftime` `%Y`). -/
def pad4 (n : ℕ) : String :=
  if n < 10 then "000" ++ toString n
  else if n < 100 then "00" ++ toString n
  else if n < 1000 then "0" ++ toString n
  else toString n

/-- Embeds `StockFormatter.format_date` (`formatter.py` lines 169-193):
`"N/A"` for a falsy input, else an attempted parse rendered through
`strftime`, the original string returned unchanged when the parse raises
(the `try` covers both the parse and the rendering, and the rendering of a
valid date is total, so the embedded function is total). -/
def format_date (date_str : Option String) (format_type : FormatType) : String :=
  match date_str with
  | Option.none => "N/A"
  | some s =>
    if s = "" then "N/A"
    else
      match parsedDateOf s with
      | some dt =>
        match format_type with
        | .long => pad4 dt.year ++ "년 " ++ pad2 dt.month ++ "월 " ++ pad2 dt.day ++ "일"
        | .short => pad4 dt.year ++ "-" ++ pad2 dt.month ++ "-" ++ pad2 dt.day
      | Option.none => s

/-! ## Helper lemmas -/

theorem roundHalfEven_ge_floor (x : ℚ) : ⌊x⌋ ≤ roundHalfEven x := by
  unfold roundHalfEven
  split_ifs <;> omega

theorem roundHalfEven_le_ceil (x : ℚ) : roundHalfEven x ≤ ⌈x⌉ := by
  unfold roundHalfEven
  split_ifs with h1 h2 h3
  · exact Int.floor_le_ceil x
  · have hlt : (⌊x⌋ : ℚ) < x := by
      by_contra hc
      push_neg at hc
      have hx : x - ⌊x⌋ ≤ 0 := by linarith
      linarith
    have : ⌊x⌋ < ⌈x⌉ := by
      have h := Int.lt_ceil.mpr hlt
      exact_mod_cast h
    omega
  · exact Int.floor_le_ceil x
  · have hlt : (⌊x⌋ : ℚ) < x := by linarith
    have : ⌊x⌋ < ⌈x⌉ := by
      have h := Int.lt_ceil.mpr hlt
      exact_mod_cast h
    omega

theorem pyRound_nonneg (x : ℚ) (k : ℕ) (hx : 0 ≤ x) : 0 ≤ pyRound x k := by
  unfold pyRound
  have h10 : (0 : ℚ) < 10 ^ k := by positivity
  apply div_nonneg _ (le_of_lt h10)
  have hge : (0 : ℤ) ≤ ⌊x * 10 ^ k⌋ := Int.floor_nonneg.mpr (by positivity)
  have := roundHalfEven_ge_floor (x * 10 ^ k)
  exact_mod_cast le_trans hge this

theorem pyRound_le_int (x : ℚ) (k : ℕ) (m : ℤ) (hx : x ≤ m) : pyRound x k ≤ m := by
  unfold pyRound
  have h10 : (0 : ℚ) < 10 ^ k := by positivity
  rw [div_le_iff₀ h10]
  have hceil : ⌈x * 10 ^ k⌉ ≤ m * 10 ^ k := by
    apply Int.ceil_le.mpr
    push_cast
    exact mul_le_mul_of_nonneg_right hx (le_of_lt h10)
  have := roundHalfEven_le_ceil (x * 10 ^ k)
  have hle : roundHalfEven (x * 10 ^ k) ≤ m * 10 ^ k := le_trans this hceil
  exact_mod_cast hle

theorem pyRound_mem (x : ℚ) (k : ℕ) (h0 : 0 ≤ x) (h1 : x ≤ 100) :
    0 ≤ pyRound x k ∧ pyRound x k ≤ 100 := by
  refine ⟨pyRound_nonneg x k h0, ?_⟩
  have := pyRound_le_int x k 100 (by exact_mod_cast h1)
  exact_mod_cast this

theorem roe_score_of_mem (r : Option ℚ) :
    0 ≤ roe_score_of r ∧ roe_score_of r ≤ 100 := by
  cases r with
  | none => norm_num [roe_score_of]
  | some v =>
    simp only [roe_score_of]
    split_ifs <;> refine ⟨?_, ?_⟩ <;> linarith

theorem margin_score_of_mem (p : Option ℚ) :
    0 ≤ margin_score_of p ∧ margin_score_of p ≤ 100 := by
  cases p with
  | none => norm_num [margin_score_of]
  | some v =>
    simp only [margin_score_of]
    split_ifs <;> refine ⟨?_, ?_⟩ <;> linarith

theorem pe_score_of_mem (p : Option ℚ) :
    0 ≤ pe_score_of p ∧ pe_score_of p ≤ 100 := by
  cases p with
  | none => norm_num [pe_score_of]
  | some v =>
    simp only [pe_score_of]
    split_ifs <;> refine ⟨?_, ?_⟩ <;>
      first
        | linarith
        | exact le_max_left 0 _
        | exact max_le (by norm_num) (by linarith)

theorem pb_score_of_mem (p : Option ℚ) :
    0 ≤ pb_score_of p ∧ pb_score_of p ≤ 100 := by
  cases p with
  | none => norm_num [pb_score_of]
  | some v =>
    simp only [pb_score_of]
    split_ifs <;> refine ⟨?_, ?_⟩ <;>
      first
        | linarith
        | exact le_max_left 0 _
        | exact max_le (by norm_num) (by linarith)

theorem market_cap_score_of_mem (v : PyVal) :
    0 ≤ market_cap_score_of v ∧ market_cap_score_of v ≤ 100 := by
  cases v with
  | none => norm_num [market_cap_score_of]
  | num q =>
    simp only [market_cap_score_of, pyFloat, tryOr, bind, Except.bind, pure, Except.pure]
    split_ifs <;> norm_num
  | str s =>
    simp only [market_cap_score_of, pyFloat, tryOr]
    cases strToRat s with
    | none => norm_num
    | some q =>
      simp only [bind, Except.bind, pure, Except.pure]
      split_ifs <;> norm_num

theorem beta_score_of_mem (b : Option ℚ) (hb : ∀ x, b = some x → 0 ≤ x) :
    0 ≤ beta_score_of b ∧ beta_score_of b ≤ 100 := by
  cases b with
  | none => norm_num [beta_score_of]
  | some v =>
    have hv : 0 ≤ v := hb v rfl
    simp only [beta_score_of]
    split_ifs with h1 h2 h3 h4
    · exact ⟨by norm_num, by norm_num⟩
    · rcases h2 with ⟨ha, hc⟩ | ⟨ha, hc⟩ <;>
        exact ⟨by norm_num; linarith, by norm_num; linarith⟩
    · rcases h2 with ⟨ha, hc⟩ | ⟨ha, hc⟩ <;>
        exact ⟨by norm_num; linarith, by norm_num; linarith⟩
    · exact ⟨by norm_num; linarith, by norm_num; linarith⟩
    · exact ⟨le_max_left 0 _, max_le (by norm_num) (by norm_num; linarith)⟩

theorem score_profitability_mem (roe pm : Option ℚ) :
    0 ≤ _score_profitability roe pm ∧ _score_profitability roe pm ≤ 100 := by
  have h1 := roe_score_of_mem roe
  have h2 := margin_score_of_mem pm
  unfold _score_profitability
  exact pyRound_mem _ 1 (by norm_num; linarith [h1.1, h2.1])
    (by norm_num; linarith [h1.2, h2.2])

theorem score_valuation_mem (pe pb : Option ℚ) :
    0 ≤ _score_valuation pe pb ∧ _score_valuation pe pb ≤ 100 := by
  have h1 := pe_score_of_mem pe
  have h2 := pb_score_of_mem pb
  unfold _score_valuation
  exact pyRound_mem _ 1 (by norm_num; linarith [h1.1, h2.1])
    (by norm_num; linarith [h1.2, h2.2])

theorem score_stability_mem (mc : PyVal) (b : Option ℚ) (hb : ∀ x, b = some x → 0 ≤ x) :
    0 ≤ _score_stability mc b ∧ _score_stability mc b ≤ 100 := by
  have h1 := market_cap_score_of_mem mc
  have h2 := beta_score_of_mem b hb
  unfold _score_stability
  exact pyRound_mem _ 1 (by norm_num; linarith [h1.1, h2.1])
    (by norm_num; linarith [h1.2, h2.2])

theorem score_momentum_mem (price : ℚ) (low high : Option ℚ)
    (h : ∀ l u, low = some l → high = some u → l ≤ price ∧ price ≤ u) :
    0 ≤ _score_momentum price low high ∧ _score_momentum price low high ≤ 100 := by
  cases low with
  | none => cases high <;> norm_num [_score_momentum]
  | some l =>
    cases high with
    | none => norm_num [_score_momentum]
    | some u =>
      obtain ⟨hl, hu⟩ := h l u rfl rfl
      simp only [_score_momentum]
      split_ifs with h1 h2
      · norm_num
      · norm_num
      · push_neg at h1 h2
        have hrange : 0 < u - l := by linarith
        have hpos : 0 ≤ (price - l) / (u - l) := div_nonneg (by linarith) (le_of_lt hrange)
        have hle : (price - l) / (u - l) ≤ 1 := (div_le_one hrange).mpr (by linarith)
        exact pyRound_mem _ 1 (by nlinarith) (by nlinarith)

theorem calculate_score_mem (sd : StockData) (roe pe pb : Option ℚ)
    (market_cap : PyVal) (beta : Option ℚ) (info : Option Info) :
    0 ≤ calculate_score sd roe pe pb market_cap beta info ∧
      calculate_score sd roe pe pb market_cap beta info ≤ 100 := by
  simp only [calculate_score]
  exact pyRound_mem _ 1 (le_max_left 0 _)
    (max_le (by norm_num) (min_le_left 100 _))

/-- C1: For every combination of finite inputs, each sub-score lies in
`[0, 100]` — REFUTED for `_score_momentum`: the position ratio is not
clamped, so a current price of 300 against the 52-week range `[100, 200]`
produces the sub-score 180. -/
theorem C1_cex_momentum_out_of_range :
    _score_momentum 300 (some 100) (some 200) = 180 ∧
      ¬ _score_momentum 300 (some 100) (some 200) ≤ 100 := by
  have h : _score_momentum 300 (some 100) (some 200) = 180 := by
    simp only [_score_momentum]
    rw [if_neg (by norm_num), if_neg (by norm_num)]
    norm_num [pyRound, roundHalfEven]
  exact ⟨h, by rw [h]; norm_num⟩

/-- C1 (amended): `_score_profitability` and `_score_valuation` lie in
`[0, 100]` for all finite inputs; `_score_momentum` lies in `[0, 100]`
whenever the current price lies inside any present 52-week range (it is
unbounded otherwise); `_score_stability` lies in `[0, 100]` whenever any
present beta is nonnegative (a beta below −1.5 can push it below 0); the
final `calculate_score` lies in `[0, 100]` unconditionally thanks to its
clamp; and with every optional input absent the final score is exactly
`50.0`. -/
theorem C1_subscore_bounds (roe pm pe pb : Option ℚ) (price : ℚ)
    (low high : Option ℚ) (market_cap : PyVal) (beta : Option ℚ)
    (sd : StockData) (info : Option Info) :
    (0 ≤ _score_profitability roe pm ∧ _score_profitability roe pm ≤ 100) ∧
    (0 ≤ _score_valuation pe pb ∧ _score_valuation pe pb ≤ 100) ∧
    ((∀ l u, low = some l → high = some u → l ≤ price ∧ price ≤ u) →
      0 ≤ _score_momentum price low high ∧ _score_momentum price low high ≤ 100) ∧
    ((∀ x, beta = some x → 0 ≤ x) →
      0 ≤ _score_stability market_cap beta ∧ _score_stability market_cap beta ≤ 100) ∧
    (0 ≤ calculate_score sd roe pe pb market_cap beta info ∧
      calculate_score sd roe pe pb market_cap beta info ≤ 100) ∧
    calculate_score {} Option.none Option.none Option.none PyVal.none Option.none
      Option.none = 50 := by
  refine ⟨score_profitability_mem roe pm, score_valuation_mem pe pb,
    fun h => score_momentum_mem price low high h,
    fun h => score_stability_mem market_cap beta h,
    calculate_score_mem sd roe pe pb market_cap beta info, ?_⟩
  norm_num [calculate_score, resolveInfoDict, calculate_profit_margin,
    _score_profitability, _score_valuation, _score_momentum, _score_stability,
    roe_score_of, margin_score_of, pe_score_of, pb_score_of,
    market_cap_score_of, beta_score_of, pyGet, pyGetD, tryOr, bind, Except.bind,
    pure, Except.pure, pyFloat, pyGtZ, pyDiv, pyRound, roundHalfEven, Option.getD]

/-- C1 witness: the amended bounds instantiated at concrete inputs, the
momentum and stability hypotheses discharged at a price inside the range and
a nonnegative beta. -/
theorem C1_subscore_bounds_witness :
    (0 ≤ _score_momentum 150 (some 100) (some 200) ∧
      _score_momentum 150 (some 100) (some 200) ≤ 100) ∧
    (0 ≤ _score_stability (PyVal.num 5000000000) (some 1) ∧
      _score_stability (PyVal.num 5000000000) (some 1) ≤ 100) ∧
    (0 ≤ _score_profitability (some 12) (some (3 / 20)) ∧
      _score_profitability (some 12) (some (3 / 20)) ≤ 100) := by
  have h := C1_subscore_bounds (some 12) (some (3 / 20)) Option.none Option.none
    150 (some 100) (some 200) (PyVal.num 5000000000) (some 1) {} Option.none
  refine ⟨h.2.2.1 ?_, h.2.2.2.1 ?_, h.1⟩
  · intro l u hl hu
    cases hl
    cases hu
    norm_num
  · intro x hx
    cases hx
    norm_num

/-- C2: `calculate_score` returns the weighted sum
`0.4·profitability + 0.3·valuation + 0.2·momentum + 0.1·stability` of the
four sub-scores, clamped to `[0, 100]` and rounded to one decimal place —
CONFIRMED. -/
theorem C2_weighted_sum (sd : StockData) (roe pe pb : Option ℚ)
    (market_cap : PyVal) (beta : Option ℚ) (info : Option Info) :
    calculate_score sd roe pe pb market_cap beta info =
      pyRound (max 0 (min 100 (
        0.4 * _score_profitability roe (calculate_profit_margin (resolveInfoDict info sd)) +
        0.3 * _score_valuation pe pb +
        0.2 * _score_momentum (sd.current_price.getD 0) sd.fifty_two_week_low
          sd.fifty_two_week_high +
        0.1 * _score_stability market_cap beta))) 1 := by
  simp only [calculate_score]
  congr 1
  congr 1
  congr 1
  ring

/-- C7: the valuation `pe_score` is the specified piecewise-linear function
with boundaries in the lower segment: 80 at pe=10, 50 at pe=20, 20 at pe=30,
19 at pe=31 (the `>30` branch), and the neutral 50 for an absent or
nonpositive PER — CONFIRMED (the first conjunct ties the block to
`_score_valuation`). -/
theorem C7_pe_score_values :
    (∀ pe pb : Option ℚ, _score_valuation pe pb =
        pyRound (pe_score_of pe * 0.5 + pb_score_of pb * 0.5) 1) ∧
    pe_score_of (some 10) = 80 ∧ pe_score_of (some 20) = 50 ∧
    pe_score_of (some 30) = 20 ∧ pe_score_of (some 31) = 19 ∧
    pe_score_of Option.none = 50 ∧ (∀ p : ℚ, p ≤ 0 → pe_score_of (some p) = 50) := by
  refine ⟨fun pe pb => rfl, by norm_num [pe_score_of], by norm_num [pe_score_of],
    by norm_num [pe_score_of], by norm_num [pe_score_of],
    by norm_num [pe_score_of], ?_⟩
  intro p hp
  simp only [pe_score_of]
  rw [if_neg (by linarith)]

/-- C7 witness: the nonpositive-PER clause of `C7_pe_score_values`
instantiated at −5, together with one of its closed boundary values. -/
theorem C7_pe_score_values_witness :
    pe_score_of (some (-5)) = 50 ∧ pe_score_of (some 10) = 80 :=
  ⟨C7_pe_score_values.2.2.2.2.2.2 (-5) (by norm_num), C7_pe_score_values.2.1⟩

theorem peFromIncome_spec (info : Info) (mc : Option ℚ) (q : ℚ)
    (h : peFromIncome info mc = .ok (some q)) :
    ∃ m ni, mc = some m ∧ 0 < m ∧
      pyGetD info.netIncomeToCommon (PyVal.num 0) = PyVal.num ni ∧ 0 < ni ∧
      q = pyRound (m / ni) 2 := by
  cases hmc : mc with
  | none =>
    rw [hmc] at h
    simp [peFromIncome, pure, Except.pure] at h
  | some m =>
    rw [hmc] at h
    simp only [peFromIncome] at h
    cases hni : pyGetD info.netIncomeToCommon (PyVal.num 0) with
    | none =>
      rw [hni] at h
      simp [PyVal.truthy, pure, Except.pure] at h
    | str s =>
      rw [hni] at h
      simp only [PyVal.truthy, pyGtZ, bind, Except.bind, pure, Except.pure] at h
      split_ifs at h <;> simp_all
    | num ni =>
      rw [hni] at h
      simp only [PyVal.truthy, pyGtZ, pyDiv, bind, Except.bind, pure, Except.pure] at h
      split_ifs at h <;> simp_all

/-- C3: the PER cascade in order, first non-null/non-zero result wins:
`trailing_pe = 15` is returned whatever the other fields hold;
`trailing_pe` absent with `market_cap = 1000000` and `net_income = 100000`
yields `10.0`; the `market_cap / net_income` strategy fires only with a
positive numeric net income (and positive market cap); and with every
strategy failing the result defaults to `0.0` — CONFIRMED. -/
theorem C3_pe_cascade (info : Info) (fdr_data : Fdr) (market_cap : Option ℚ) :
    (pyGet info.trailingPE = PyVal.num 15 →
      calculate_pe info fdr_data market_cap = .ok (PyVal.num 15)) ∧
    (pyGet info.trailingPE = PyVal.none → market_cap = some 1000000 →
      pyGetD info.netIncomeToCommon (PyVal.num 0) = PyVal.num 100000 →
      calculate_pe info fdr_data market_cap = .ok (PyVal.num 10)) ∧
    (∀ q, peFromIncome info market_cap = .ok (some q) →
      ∃ m ni, market_cap = some m ∧ 0 < m ∧
        pyGetD info.netIncomeToCommon (PyVal.num 0) = PyVal.num ni ∧ 0 < ni ∧
        q = pyRound (m / ni) 2) ∧
    ((pyGet info.trailingPE).truthy = false →
      (∀ q, peFromIncome info market_cap ≠ .ok (some q)) →
      (pyGet info.forwardPE).truthy = false →
      fdr_data.per = Option.none →
      calculate_pe info fdr_data market_cap = .ok (PyVal.num 0)) := by
  refine ⟨?_, ?_, fun q h => peFromIncome_spec info market_cap q h, ?_⟩
  · intro h
    norm_num [calculate_pe, h, PyVal.truthy, pure, Except.pure]
  · intro h1 h2 h3
    have hstrat : peFromIncome info market_cap = .ok (some 10) := by
      rw [h2]
      simp only [peFromIncome, h3]
      norm_num [PyVal.truthy, pyGtZ, pyDiv, bind, Except.bind, pure, Except.pure,
        pyRound, roundHalfEven]
    norm_num [calculate_pe, h1, hstrat, applyStrategy, PyVal.truthy, pure, Except.pure]
  · intro h1 h2 h3 h4
    cases hres : peFromIncome info market_cap with
    | error e =>
      simp [calculate_pe, h1, h3, h4, hres, applyStrategy, pyGetD, pure, Except.pure]
    | ok o =>
      cases o with
      | none =>
        simp [calculate_pe, h1, h3, h4, hres, applyStrategy, pyGetD, pure, Except.pure]
      | some q => exact absurd hres (h2 q)

/-- C3 witness: the four cascade clauses instantiated at concrete records:
a truthy `trailingPE = 15` wins over a junk net income; the
market-cap/net-income pair `1000000 / 100000` yields `10`; that strategy
result exhibits a positive net income; and the all-absent record defaults to
`0.0`. -/
theorem C3_pe_cascade_witness :
    calculate_pe { trailingPE := some (.num 15), netIncomeToCommon := some (.str "junk") }
      {} Option.none = .ok (PyVal.num 15) ∧
    calculate_pe { netIncomeToCommon := some (.num 100000) } {} (some 1000000) =
      .ok (PyVal.num 10) ∧
    (∃ m ni, (some 1000000 : Option ℚ) = some m ∧ 0 < m ∧
      pyGetD (Info.netIncomeToCommon { netIncomeToCommon := some (.num 100000) })
        (PyVal.num 0) = PyVal.num ni ∧ 0 < ni ∧
      pyRound (1000000 / 100000) 2 = pyRound (m / ni) 2) ∧
    calculate_pe {} {} Option.none = .ok (PyVal.num 0) := by
  refine ⟨(C3_pe_cascade _ {} Option.none).1 rfl,
    (C3_pe_cascade _ {} (some 1000000)).2.1 rfl rfl rfl,
    (C3_pe_cascade { netIncomeToCommon := some (.num 100000) } {}
      (some 1000000)).2.2.1 (pyRound (1000000 / 100000) 2) ?_,
    (C3_pe_cascade {} {} Option.none).2.2.2 rfl ?_ rfl rfl⟩
  · simp only [peFromIncome]
    norm_num [pyGetD, PyVal.truthy, pyGtZ, pyDiv, bind, Except.bind, pure, Except.pure]
  · intro q
    simp [peFromIncome, pure, Except.pure]

/-- C4 counterexample: a present `return_on_equity` of `0` is NOT terminal —
the `if not roe` guard treats the computed `0.0` as unset, so the
equity-based strategy replaces it (here with `50.0 ≠ 0 × 100`). -/
theorem C4_cex_zero_roe_not_terminal :
    calculate_roe
      { returnOnEquity := some (.num 0), netIncomeToCommon := some (.num 50),
        totalStockholderEquity := some (.num 100) }
      { balance_sheet := .error "down", income_stmt := .error "down",
        history1y := .error "down" } = .ok (some 50) ∧ (50 : ℚ) ≠ 0 * 100 := by
  constructor
  · have h1 : roeFirst
        { returnOnEquity := some (.num 0), netIncomeToCommon := some (.num 50),
          totalStockholderEquity := some (.num 100) } = .ok (some 0) := by
      simp only [roeFirst, pyGet, Option.getD]
      rw [if_pos (fun hc => PyVal.noConfusion hc)]
      norm_num [pyMulInt, pyRoundVal, bind, Except.bind, pure, Except.pure,
        pyRound, roundHalfEven]
    have h2 : roeFromEquity
        { returnOnEquity := some (.num 0), netIncomeToCommon := some (.num 50),
          totalStockholderEquity := some (.num 100) } = .ok (some 50) := by
      norm_num [roeFromEquity, pyGet, pyGetD, pyOr, pyEqZero, PyVal.truthy, pyGtZ,
        pyDiv, bind, Except.bind, pure, Except.pure, pyRound, roundHalfEven]
    norm_num [calculate_roe, h1, h2, applyStrategyOpt, optTruthy, bind, Except.bind,
      pure, Except.pure]
  · norm_num

/-- C4 (amended): a present numeric `return_on_equity` is terminal whenever
its rounded percentage `round(roe·100, 2)` is nonzero (a zero result is
treated as unset and later strategies may replace it, as the counterexample
shows); and when the field is absent and both remaining strategies produce
nothing, `calculate_roe` returns `None`, never zero. -/
theorem C4_roe_cascade (info : Info) (stock : Stock) :
    (∀ q : ℚ, pyGet info.returnOnEquity = PyVal.num q →
      pyRound (q * 100) 2 ≠ 0 →
      calculate_roe info stock = .ok (some (pyRound (q * 100) 2))) ∧
    (pyGet info.returnOnEquity = PyVal.none →
      applyStrategyOpt (roeFromEquity info) Option.none = Option.none →
      applyStrategyOpt (roeFromStatements stock) Option.none = Option.none →
      calculate_roe info stock = .ok Option.none) := by
  constructor
  · intro q hq hnz
    have h1 : roeFirst info = .ok (some (pyRound (q * 100) 2)) := by
      simp only [roeFirst, hq]
      rw [if_pos (fun hc => PyVal.noConfusion hc)]
      norm_num [pyMulInt, pyRoundVal, bind, Except.bind, pure, Except.pure]
    have hopt : optTruthy (some (pyRound (q * 100) 2)) = true := by
      simp [optTruthy, hnz]
    simp [calculate_roe, h1, hopt, bind, Except.bind, pure, Except.pure]
  · intro h1 h2 h3
    have hr : roeFirst info = .ok Option.none := by
      simp only [roeFirst, h1]
      rw [if_neg (fun hc => hc rfl)]
      rfl
    simp [calculate_roe, hr, optTruthy, h2, h3, bind, Except.bind]
    rfl

/-- C4 witness: the amended cascade at a record with `returnOnEquity = 0.15`
(terminal `15.0`) and at the all-absent record against an unreachable stock
(absent result). -/
theorem C4_roe_cascade_witness :
    calculate_roe { returnOnEquity := some (.num (3 / 20)) }
      { balance_sheet := .error "down", income_stmt := .error "down",
        history1y := .error "down" } = .ok (some 15) ∧
    calculate_roe {}
      { balance_sheet := .error "down", income_stmt := .error "down",
        history1y := .error "down" } = .ok Option.none := by
  have hv : pyRound ((3 : ℚ) / 20 * 100) 2 = 15 := by
    norm_num [pyRound, roundHalfEven]
  constructor
  · have h := (C4_roe_cascade { returnOnEquity := some (.num (3 / 20)) }
      { balance_sheet := .error "down", income_stmt := .error "down",
        history1y := .error "down" }).1 (3 / 20) rfl (by rw [hv]; norm_num)
    rw [hv] at h
    exact h
  · refine (C4_roe_cascade {}
      { balance_sheet := .error "down", income_stmt := .error "down",
        history1y := .error "down" }).2 rfl ?_ ?_
    · norm_num [roeFromEquity, applyStrategyOpt, pyGet, pyGetD, pyOr, pyEqZero,
        PyVal.truthy, pyGtZ, bind, Except.bind, pure, Except.pure]
    · norm_num [roeFromStatements, applyStrategyOpt, bind, Except.bind]

/-- C5: the dividend-yield cascade — direct `(dividend_rate / current_price)
× 100` whenever both are positive numbers; else the source yield field,
scaled by 100 exactly when the raw value is below 1 (so 0.03 and 3.0 both
yield 3.0, never double-scaled); else the external cache value; else `0.0` —
CONFIRMED. -/
theorem C5_dividend_yield_cascade (info : Info) (fdr_data : Fdr) (is_korean : Bool) :
    (∀ r p : ℚ, pyGet info.dividendRate = PyVal.num r →
      pyGet info.currentPrice = PyVal.num p → 0 < r → 0 < p →
      calculate_dividend_yield info fdr_data is_korean = .ok (r / p * 100)) ∧
    (∀ y : ℚ, tryOr (dyDirect info) Option.none = Option.none →
      pyGet info.dividendYield = PyVal.num y →
      calculate_dividend_yield info fdr_data is_korean =
        .ok (if y < 1 then y * 100 else y)) ∧
    (tryOr (dyDirect info) Option.none = Option.none →
      tryOr (dyFromRaw info) Option.none = Option.none →
      (∀ v : ℚ, pyGet fdr_data.dividend_yield = PyVal.num v →
        calculate_dividend_yield info fdr_data is_korean = .ok v) ∧
      (pyGet fdr_data.dividend_yield = PyVal.none →
        calculate_dividend_yield info fdr_data is_korean = .ok 0)) := by
  refine ⟨?_, ?_, ?_⟩
  · intro r p hr hp hr0 hp0
    have hdirect : dyDirect info = .ok (some (r / p * 100)) := by
      simp only [dyDirect, hr, hp]
      rw [if_pos ⟨fun hc => PyVal.noConfusion hc, fun hc => PyVal.noConfusion hc⟩]
      simp only [pyFloat, bind, Except.bind]
      rw [if_pos ⟨hr0, hp0⟩]
      rfl
    have h1 : tryOr (dyDirect info) Option.none = some (r / p * 100) := by
      rw [hdirect]
      rfl
    simp only [calculate_dividend_yield]
    rw [h1]
    rfl
  · intro y h1 hy
    have hraw : dyFromRaw info = .ok (some (if y < 1 then y * 100 else y)) := by
      simp only [dyFromRaw, hy]
      rw [if_pos (fun hc => PyVal.noConfusion hc)]
      simp only [pyFloat, bind, Except.bind]
      rfl
    have h2 : tryOr (dyFromRaw info) Option.none = some (if y < 1 then y * 100 else y) := by
      rw [hraw]
      rfl
    simp only [calculate_dividend_yield]
    rw [h1, h2]
    rfl
  · intro h1 h2
    constructor
    · intro v hv
      have hfdr : dyFromFdr fdr_data = .ok (some v) := by
        simp only [dyFromFdr, hv]
        rw [if_pos (fun hc => PyVal.noConfusion hc)]
        simp only [pyFloat, bind, Except.bind]
        rfl
      have h3 : tryOr (dyFromFdr fdr_data) Option.none = some v := by
        rw [hfdr]
        rfl
      simp only [calculate_dividend_yield]
      rw [h1, h2, h3]
      rfl
    · intro hv
      have hfdr : dyFromFdr fdr_data = .ok Option.none := by
        simp only [dyFromFdr, hv]
        rw [if_neg (fun hc => hc rfl)]
        rfl
      have h3 : tryOr (dyFromFdr fdr_data) Option.none = Option.none := by
        rw [hfdr]
        rfl
      simp only [calculate_dividend_yield]
      rw [h1, h2, h3]
      rfl

/-- C5 witness: raw yield 0.03 scales to 3.0 while raw yield 3.0 passes
through unchanged; a direct pair (2, 50) yields 4.0; the empty record
defaults to 0.0. -/
theorem C5_dividend_yield_cascade_witness :
    calculate_dividend_yield { dividendYield := some (.num (3 / 100)) } {} false =
      .ok 3 ∧
    calculate_dividend_yield { dividendYield := some (.num 3) } {} false = .ok 3 ∧
    calculate_dividend_yield { dividendRate := some (.num 2), currentPrice := some (.num 50) } {} false = .ok 4 ∧
    calculate_dividend_yield {} {} false = .ok 0 := by
  have hnodirect : ∀ i : Info, pyGet i.dividendRate = PyVal.none →
      tryOr (dyDirect i) Option.none = Option.none := by
    intro i hi
    simp [dyDirect, hi, tryOr, pure, Except.pure]
  refine ⟨?_, ?_, ?_, ?_⟩
  · have h := (C5_dividend_yield_cascade { dividendYield := some (.num (3 / 100)) }
      {} false).2.1 (3 / 100) (hnodirect _ rfl) rfl
    rw [if_pos (by norm_num)] at h
    norm_num at h
    exact h
  · have h := (C5_dividend_yield_cascade { dividendYield := some (.num 3) }
      {} false).2.1 3 (hnodirect _ rfl) rfl
    rw [if_neg (by norm_num)] at h
    exact h
  · have h := (C5_dividend_yield_cascade
      { dividendRate := some (.num 2), currentPrice := some (.num 50) } {} false).1
      2 50 rfl rfl (by norm_num) (by norm_num)
    norm_num at h
    exact h
  · refine ((C5_dividend_yield_cascade {} {} false).2.2 (hnodirect _ rfl) ?_).2 rfl
    simp [dyFromRaw, tryOr, pyGet, pure, Except.pure]

@[simp]
theorem PyVal.num_ne_none (q : ℚ) : PyVal.num q ≠ PyVal.none :=
  fun h => PyVal.noConfusion h

@[simp]
theorem PyVal.str_ne_none (s : String) : PyVal.str s ≠ PyVal.none :=
  fun h => PyVal.noConfusion h

@[simp]
theorem pure_eq_ok {α : Type} (x : α) : (pure x : Except PyErr α) = Except.ok x := rfl

theorem pctChange_length (cs : List ℚ) : (pctChange cs).length = cs.length - 1 := by
  induction cs with
  | nil => rfl
  | cons a t ih =>
    cases t with
    | nil => rfl
    | cons b r =>
      simp only [pctChange, List.length_cons] at *
      omega

/-- C6 counterexample: a present `beta = 0` is falsy under the `if not
volatility` guard, so the historical strategy runs and replaces both the
value and the tag: the result is `(0.0, "historical")`, not the beta-tagged
value the claim requires for every present beta. -/
theorem C6_cex_zero_beta_not_terminal :
    calculate_volatility { beta := some (.num 0) }
      { balance_sheet := .error "down", income_stmt := .error "down",
        history1y := .ok [100, 110, 121] } =
      .ok (PyVal.num 0, some "historical") ∧
      some "historical" ≠ some "beta" := by
  constructor
  · have hvar : sampleVariance (pctChange [100, 110, 121]) = 0 := by
      norm_num [pctChange, sampleVariance, listSum, List.foldl]
    have hann : annualVolatilityOf (pctChange [100, 110, 121]) = 0 := by
      unfold annualVolatilityOf
      rw [hvar]
      simp
    have hround : pyRoundR ((0 : ℝ) * 100) 2 = 0 := by
      norm_num [pyRoundR, roundHalfEvenR]
    have hhist : volHistorical
        { balance_sheet := .error "down", income_stmt := .error "down",
          history1y := .ok [100, 110, 121] } = .ok (some 0) := by
      simp only [volHistorical, bind, Except.bind]
      rw [if_pos (by norm_num)]
      rw [if_pos (by norm_num [pctChange])]
      rw [hann, hround]
      rfl
    simp [calculate_volatility, pyGet, Option.getD, hhist, PyVal.truthy]
  · simp

/-- C6 (amended): a present truthy (nonzero) beta is returned tagged
`"beta"`; only with beta absent does the cascade consult the history: with at
least three closes it returns the annualized historical volatility
`round(std(pct_change) · sqrt(252) · 100, 2)` tagged `"historical"`, and
with a short or failing history the result is absent (a present beta of
exactly 0 is treated as unset, as the counterexample shows, and two closes
produce a NaN in the real code, outside this rational model). -/
theorem C6_volatility_cascade (info : Info) (stock : Stock) :
    ((pyGet info.beta).truthy = true →
      calculate_volatility info stock = .ok (pyGet info.beta, some "beta")) ∧
    (pyGet info.beta = PyVal.none →
      (∀ closes, stock.history1y = .ok closes → 3 ≤ closes.length →
        calculate_volatility info stock =
          .ok (PyVal.num (pyRoundR (annualVolatilityOf (pctChange closes) * 100) 2),
            some "historical")) ∧
      (∀ closes, stock.history1y = .ok closes → closes.length ≤ 1 →
        calculate_volatility info stock = .ok (PyVal.none, Option.none)) ∧
      (∀ e, stock.history1y = .error e →
        calculate_volatility info stock = .ok (PyVal.none, Option.none))) := by
  constructor
  · intro hb
    have hne : pyGet info.beta ≠ PyVal.none := by
      intro h
      rw [h] at hb
      simp [PyVal.truthy] at hb
    simp only [calculate_volatility]
    rw [if_pos hne, if_pos hne, if_neg (by rw [hb]; simp)]
    rfl
  · intro hnone
    refine ⟨?_, ?_, ?_⟩
    · intro closes hcl hlen
      have hne : closes.isEmpty = false := by
        cases closes with
        | nil => simp at hlen
        | cons a t => rfl
      have hlen1 : closes.length > 1 := by omega
      have hhist : volHistorical stock =
          .ok (some (pyRoundR (annualVolatilityOf (pctChange closes) * 100) 2)) := by
        simp only [volHistorical, hcl, bind, Except.bind]
        rw [if_pos (by simp [hne, hlen1])]
        rw [if_pos (by rw [pctChange_length]; omega)]
        rfl
      simp [calculate_volatility, hnone, hhist, PyVal.truthy]
    · intro closes hcl hlen
      have hhist : volHistorical stock = .ok Option.none := by
        cases closes with
        | nil => simp [volHistorical, hcl, bind, Except.bind]
        | cons a t =>
          cases t with
          | nil => simp [volHistorical, hcl, bind, Except.bind]
          | cons b r =>
            simp only [List.length_cons] at hlen
            omega
      simp [calculate_volatility, hnone, hhist, PyVal.truthy]
    · intro e he
      have hhist : volHistorical stock = .error e := by
        simp only [volHistorical, he, bind, Except.bind]
      simp [calculate_volatility, hnone, hhist, PyVal.truthy]

/-- C6 witness: the amened cascade at a truthy beta of 1.5 (beta-tagged,
history untouched), at a one-row history (absent result) and at a three-row
history (historical tag). -/
theorem C6_volatility_cascade_witness :
    calculate_volatility { beta := some (.num (3 / 2)) }
      { balance_sheet := .error "down", income_stmt := .error "down",
        history1y := .error "down" } = .ok (PyVal.num (3 / 2), some "beta") ∧
    calculate_volatility {}
      { balance_sheet := .error "down", income_stmt := .error "down",
        history1y := .ok [100] } = .ok (PyVal.none, Option.none) ∧
    calculate_volatility {}
      { balance_sheet := .error "down", income_stmt := .error "down",
        history1y := .ok [100, 110, 121] } =
      .ok (PyVal.num (pyRoundR (annualVolatilityOf (pctChange [100, 110, 121]) * 100) 2),
        some "historical") := by
  refine ⟨(C6_volatility_cascade { beta := some (.num (3 / 2)) }
      { balance_sheet := .error "down", income_stmt := .error "down",
        history1y := .error "down" }).1 (by norm_num [pyGet, PyVal.truthy]),
    ((C6_volatility_cascade {}
      { balance_sheet := .error "down", income_stmt := .error "down",
        history1y := .ok [100] }).2 rfl).2.1 [100] rfl (by norm_num),
    ((C6_volatility_cascade {}
      { balance_sheet := .error "down", income_stmt := .error "down",
        history1y := .ok [100, 110, 121] }).2 rfl).1 [100, 110, 121] rfl (by norm_num)⟩

@[simp]
theorem isOk_ok {α : Type} (x : α) : (Except.ok x : Except PyErr α).isOk = true := rfl

@[simp]
theorem isOk_error {α : Type} (e : PyErr) :
    (Except.error e : Except PyErr α).isOk = false := rfl

/-- C8 counterexample: the first ROE strategy is not wrapped in a `try`, so a
string-valued `returnOnEquity` raises out of `calculate_roe` itself
(`"x" * 100` is string repetition, and `round` of a string raises
`TypeError`), contradicting the claim that every metric cascade never
raises. -/
theorem C8_cex_roe_raises_on_string :
    (calculate_roe { returnOnEquity := some (.str "x") }
      { balance_sheet := .error "down", income_stmt := .error "down",
        history1y := .error "down" }).isOk = false := by rfl

/-- C8 (amended): `calculate_pe_ratio`, `calculate_pb_ratio` (with and
without the stock object), `calculate_dividend_yield` and
`calculate_volatility` never raise, for records of any modelled field types;
`calculate_roe` (and `calculate_roe_without_stock`) never raises provided
the `returnOnEquity` field, when present, is numeric — its first strategy
alone sits outside a `try` and propagates a type-coercion failure. -/
theorem C8_cascades_no_raise (info : Info) (fdr_data : Fdr) (market_cap : Option ℚ)
    (current_price : ℚ) (is_korean : Bool) (stock : Stock) :
    (calculate_pe info fdr_data market_cap).isOk = true ∧
    (calculate_pb info current_price fdr_data market_cap stock).isOk = true ∧
    (calculate_pb_without_stock info current_price fdr_data market_cap).isOk = true ∧
    (calculate_dividend_yield info fdr_data is_korean).isOk = true ∧
    (calculate_volatility info stock).isOk = true ∧
    ((pyGet info.returnOnEquity = PyVal.none ∨
        ∃ q, pyGet info.returnOnEquity = PyVal.num q) →
      (calculate_roe info stock).isOk = true ∧
      (calculate_roe_without_stock info).isOk = true) := by
  refine ⟨rfl, rfl, rfl, ?_, ?_, ?_⟩
  · cases h1 : tryOr (dyDirect info) Option.none with
    | some q => simp [calculate_dividend_yield, h1]
    | none =>
      cases h2 : tryOr (dyFromRaw info) Option.none with
      | some q => simp [calculate_dividend_yield, h1, h2]
      | none =>
        cases h3 : tryOr (dyFromFdr fdr_data) Option.none with
        | some q => simp [calculate_dividend_yield, h1, h2, h3]
        | none => simp [calculate_dividend_yield, h1, h2, h3]
  · simp only [calculate_volatility]
    split
    · cases hv : volHistorical stock with
      | error e => split <;> simp [hv]
      | ok o => cases o <;> (split <;> simp [hv])
    · split <;>
        (cases hv : volHistorical stock with
          | error e => simp [hv]
          | ok o => cases o <;> simp [hv])
  · intro hroe
    have hfirst : ∃ v, roeFirst info = .ok v := by
      rcases hroe with h | ⟨q, h⟩
      · refine ⟨Option.none, ?_⟩
        simp only [roeFirst, h]
        rw [if_neg (fun hc => hc rfl)]
        rfl
      · refine ⟨some (pyRound (q * ((100 : ℕ) : ℚ)) 2), ?_⟩
        simp only [roeFirst, h]
        rw [if_pos (PyVal.num_ne_none q)]
        rfl
    rcases hfirst with ⟨v, hv⟩
    constructor
    · simp only [calculate_roe]
      rw [hv]
      rfl
    · simp only [calculate_roe_without_stock]
      rw [hv]
      rfl

/-- C8 witness: the amended no-raise statement at a concrete record whose
`returnOnEquity` holds a number, an unreachable stock object and an empty
FDR cache. -/
theorem C8_cascades_no_raise_witness :
    (calculate_pe { returnOnEquity := some (.num 1) } {} Option.none).isOk = true ∧
    (calculate_roe { returnOnEquity := some (.num 1) }
      { balance_sheet := .error "down", income_stmt := .error "down",
        history1y := .error "down" }).isOk = true := by
  have h := C8_cascades_no_raise { returnOnEquity := some (.num 1) } {} Option.none 0 false
    { balance_sheet := .error "down", income_stmt := .error "down", history1y := .error "down" }
  exact ⟨h.1, (h.2.2.2.2.2 (Or.inr ⟨1, rfl⟩)).1⟩

/-- C9 counterexample: the freshness filter is `updated_at >= now - 1h`
(inclusive), so a record whose age is EXACTLY one hour — hence not "less
than 1 hour" — still short-circuits: the cached document 7 is returned with
zero provider calls and no cache write, where the claim's otherwise-branch
requires recomputation (the provider would have produced 0). -/
theorem C9_cex_boundary_age_hits_cache :
    (get_stock_info (fun q => q) (fun _ => (0 : ℕ)) (fun _ => []) "AAPL"
        ⟨[⟨"AAPL", 7, ["cached"], 0⟩]⟩ 3600).doc = 7 ∧
    (get_stock_info (fun q => q) (fun _ => (0 : ℕ)) (fun _ => []) "AAPL"
        ⟨[⟨"AAPL", 7, ["cached"], 0⟩]⟩ 3600).effects.providerCalls = 0 ∧
    (get_stock_info (fun q => q) (fun _ => (0 : ℕ)) (fun _ => []) "AAPL"
        ⟨[⟨"AAPL", 7, ["cached"], 0⟩]⟩ 3600).effects.cacheWrites = 0 ∧
    ¬ ((3600 : ℤ) - 0 < 3600) ∧ (7 : ℕ) ≠ 0 := by decide

/-- C9 (amended): for a ticker-shaped ticker, if the cache holds a record
for the uppercased ticker whose age is AT MOST one hour
(`updated_at ≥ now − 3600`), `get_stock_info` returns the cached payload
with one cache read, no provider call and no cache write; otherwise it
computes the payload through the provider collaborators, performs exactly
one cache read and exactly one cache write (the `_save_to_db` upsert). -/
theorem C9_cache_discipline {α : Type} (resolve : String → String)
    (fetchData : String → α) (fetchNews : String → List String) (ticker : String)
    (db : Db α) (now : ℤ) (hfmt : isTickerFormat ticker = true) :
    (∀ e, findFresh db (strUpper ticker) (now - 3600) = some e →
      get_stock_info resolve fetchData fetchNews ticker db now =
        ⟨e.doc, e.news, db,
          { providerCalls := 0, searchCalls := 0, cacheReads := 1, cacheWrites := 0 }⟩) ∧
    (findFresh db (strUpper ticker) (now - 3600) = Option.none →
      get_stock_info resolve fetchData fetchNews ticker db now =
        ⟨fetchData ticker, fetchNews ticker,
          saveToDb db (strUpper ticker) (fetchData ticker) (fetchNews ticker) now,
          { providerCalls := 2, searchCalls := 0, cacheReads := 1, cacheWrites := 1 }⟩) := by
  constructor
  · intro e he
    simp [get_stock_info, hfmt, he]
  · intro he
    simp [get_stock_info, hfmt, he]

/-- C9 witness: the amended discipline at a fresh cache hit (age 1000 s) and
at an empty cache (miss with upsert). -/
theorem C9_cache_discipline_witness :
    get_stock_info (fun q => q) (fun _ => (5 : ℕ)) (fun _ => ["n"]) "AAPL"
        ⟨[⟨"AAPL", 9, ["c"], 1000⟩]⟩ 2000 =
      ⟨9, ["c"], ⟨[⟨"AAPL", 9, ["c"], 1000⟩]⟩,
        { providerCalls := 0, searchCalls := 0, cacheReads := 1, cacheWrites := 0 }⟩ ∧
    get_stock_info (fun q => q) (fun _ => (5 : ℕ)) (fun _ => ["n"]) "AAPL" ⟨[]⟩ 0 =
      ⟨5, ["n"], saveToDb ⟨[]⟩ (strUpper "AAPL") 5 ["n"] 0,
        { providerCalls := 2, searchCalls := 0, cacheReads := 1, cacheWrites := 1 }⟩ := by
  constructor
  · exact (C9_cache_discipline (fun q => q) (fun _ => (5 : ℕ)) (fun _ => ["n"]) "AAPL"
      ⟨[⟨"AAPL", 9, ["c"], 1000⟩]⟩ 2000 (by decide)).1 ⟨"AAPL", 9, ["c"], 1000⟩ (by decide)
  · exact (C9_cache_discipline (fun q => q) (fun _ => (5 : ℕ)) (fun _ => ["n"]) "AAPL"
      ⟨[]⟩ 0 (by decide)).2 (by decide)

/-- C10 counterexample: the input string `"N/A"` is non-empty and
unparsable, so `format_date` returns it unchanged — which IS the sentinel,
refuting "returns N/A exactly when the input is None or empty". -/
theorem C10_cex_na_input :
    format_date (some "N/A") FormatType.short = "N/A" ∧ "N/A" ≠ "" := by decide

/-- C10 (amended): `format_date` is total (the embedded function returns a
string for every input, the source `try` covering both parse and render):
it returns `"N/A"` for `None` and for the empty string; for every non-empty
string the parse attempt cannot read, it returns the input unchanged (so the
output equals the sentinel only for an input that is itself `"N/A"`); and a
parsed date renders through the `%Y-%m-%d` format. -/
theorem C10_format_date_total (s : String) (t : FormatType) :
    format_date Option.none t = "N/A" ∧
    format_date (some "") t = "N/A" ∧
    (s ≠ "" → parsedDateOf s = Option.none → format_date (some s) t = s) ∧
    (∀ d, s ≠ "" → parsedDateOf s = some d →
      format_date (some s) FormatType.short =
        pad4 d.year ++ "-" ++ pad2 d.month ++ "-" ++ pad2 d.day) := by
  refine ⟨rfl, ?_, ?_, ?_⟩
  · simp [format_date]
  · intro hs hp
    simp [format_date, hs, hp]
  · intro d hs hp
    simp [format_date, hs, hp]

/-- C10 witness: the unparsable non-empty string `"hello"` round-trips
unchanged, and the parsable `"2024-01-15"` renders as itself. -/
theorem C10_format_date_total_witness :
    format_date (some "hello") FormatType.short = "hello" ∧
    format_date (some "2024-01-15") FormatType.short = "2024-01-15" := by
  constructor
  · exact (C10_format_date_total "hello" FormatType.short).2.2.1 (by decide) (by decide)
  · have h := (C10_format_date_total "2024-01-15" FormatType.short).2.2.2
      ⟨2024, 1, 15⟩ (by decide) (by decide)
    rw [h]
    decide

end StockAnalyst
